import Mathlib

/-!
Verification of the chat-relay server in `src/main.py` (FastAPI middleman
between a web frontend and a local Ollama server).

The Python source is shallowly embedded below:
* JSON payloads become the inductive `Json`;
* Python subscripting (`d[k]`, `l[i]`), which raises `KeyError` /
  `IndexError` / `TypeError` on failure, becomes `Except String Json`
  where the error component models `str(e)` of the raised exception;
* the helper `get_ollama_response` becomes a pure function of its inputs
  together with an explicit `PostOutcome` describing what the single
  `client.post` call did (returned a response, raised `httpx.ConnectError`,
  or raised some other exception);
* the liveness endpoint `check_ollama_status` likewise takes a `GetOutcome`;
* a small reference heap (`PyHeap`) models Python list objects so that the
  absence of mutation of the caller's `history` list can be stated.
-/

/-- `class Message(BaseModel)` (src/main.py lines 115-118): a single message
in the chat history, with fields `role : str` and `content : str`. -/
structure Message where
  role : String
  content : String
deriving DecidableEq, Repr

/-- Parsed JSON values, the result of `response.json()` and the shape of
request/response bodies. Numbers are modelled as integers (no claim touches
non-integral numbers). -/
inductive Json where
  | str : String → Json
  | num : Int → Json
  | bool : Bool → Json
  | null : Json
  | arr : List Json → Json
  | obj : List (String × Json) → Json

/-- The Python type name of a JSON value once decoded by `json.loads`,
used in `TypeError` messages. -/
def Json.pyType : Json → String
  | .str _ => "str"
  | .num _ => "int"
  | .bool _ => "bool"
  | .null => "NoneType"
  | .arr _ => "list"
  | .obj _ => "dict"

/-- `str(KeyError(k))` for a string key `k`: the repr of the key,
i.e. the key wrapped in single quotes. -/
def pyKeyErrorStr (k : String) : String := "\x27" ++ k ++ "\x27"

/-- Python subscripting `j[k]` with a string key on a decoded JSON value:
returns the entry of a dict, raises `KeyError` when the key is absent and
`TypeError` when the value is not a dict (error component = `str(e)`). -/
def pySubscriptKey (j : Json) (k : String) : Except String Json :=
  match j with
  | .obj fields =>
    match fields.find? (fun p => p.1 == k) with
    | some p => .ok p.2
    | none => .error (pyKeyErrorStr k)
  | .arr _ => .error "list indices must be integers or slices, not str"
  | other => .error (other.pyType ++ " object is not subscriptable")

/-- Python subscripting `j[i]` with a non-negative integer index: indexes a
list, raises `IndexError` when out of range, `KeyError` on a dict (a
JSON-decoded dict has only string keys, so an integer key is never present;
`str(KeyError(i))` is the decimal digits of `i`), `TypeError` otherwise
(error component = `str(e)`). -/
def pySubscriptIdx (j : Json) (i : Nat) : Except String Json :=
  match j with
  | .arr xs =>
    match xs[i]? with
    | some x => .ok x
    | none => .error "list index out of range"
  | .obj _ => .error (toString i)
  | other => .error (other.pyType ++ " object is not subscriptable")

/-- Validation of the `content` field when the code runs
`Message(role="assistant", content=bot_response_content)` (line 173):
pydantic accepts a string and raises a `ValidationError` otherwise. -/
def validateMessageContent : Json → Except String String
  | .str s => .ok s
  | j => .error ("Input should be a valid string, got " ++ j.pyType)

/-- The reply extraction performed on the parsed backend body (line 170):
`bot_response_content = ollama_data['choices'][0]['message']['content']`,
followed by the string validation of the assistant `Message` constructed
from it (line 173). Any failure raises inside the `try` block and is caught
by the generic `except Exception` handler. -/
def extractReply (j : Json) : Except String String := do
  let choices ← pySubscriptKey j "choices"
  let first ← pySubscriptIdx choices 0
  let message ← pySubscriptKey first "message"
  let content ← pySubscriptKey message "content"
  validateMessageContent content

/-- Option-valued field lookup on a JSON object (used only to state, not to
define, what path the code reads). -/
def Json.lookup (j : Json) (k : String) : Option Json :=
  match j with
  | .obj fields => (fields.find? (fun p => p.1 == k)).map (fun p => p.2)
  | _ => none

/-- Option-valued list indexing on a JSON array. -/
def Json.index (j : Json) (i : Nat) : Option Json :=
  match j with
  | .arr xs => xs[i]?
  | _ => none

/-- The string content of a JSON value, when it is a string. -/
def Json.asString : Json → Option String
  | .str s => some s
  | _ => none

/-- Direct description of the single path the code reads from the backend
body: the string at `choices[0].message.content`, when present. -/
def choicesMessageContent (j : Json) : Option String :=
  ((((j.lookup "choices").bind (fun c => c.index 0)).bind
      (fun c => c.lookup "message")).bind
      (fun m => m.lookup "content")).bind Json.asString

/-- `class ChatRequest(BaseModel)` (lines 120-123): the request body from the
frontend, `user_message : str` and `history : List[Message] = []`. -/
structure ChatRequest where
  user_message : String
  history : List Message
deriving DecidableEq, Repr

/-- `class ChatResponse(BaseModel)` (lines 125-129): the response body sent
back to the frontend; all three fields are `Optional` with default `None`. -/
structure ChatResponse where
  reply : Option String
  new_history : Option (List Message)
  error : Option String
deriving DecidableEq, Repr

/-- pydantic validation of a single `Message` from JSON: a dict whose
`role` and `content` entries are strings. -/
def parseMessage : Json → Except String Message
  | .obj fields =>
    match (fields.find? (fun p => p.1 == "role")).map (fun p => p.2),
          (fields.find? (fun p => p.1 == "content")).map (fun p => p.2) with
    | some (Json.str r), some (Json.str c) => .ok ⟨r, c⟩
    | _, _ => .error "Message: role and content must be strings"
  | j => .error ("Message: Input should be a valid dictionary, got " ++ j.pyType)

/-- pydantic validation of `List[Message]`. -/
def parseMessageList : Json → Except String (List Message)
  | .arr xs => xs.mapM parseMessage
  | j => .error ("history: Input should be a valid list, got " ++ j.pyType)

/-- pydantic validation of an incoming `ChatRequest` body: `user_message`
must be present and a string — the model imposes no further constraint on it
(in particular no non-emptiness check) — and `history` defaults to `[]`. -/
def parseChatRequest (j : Json) : Except String ChatRequest :=
  match j with
  | .obj fields =>
    match (fields.find? (fun p => p.1 == "user_message")).map (fun p => p.2) with
    | some (Json.str s) =>
      match (fields.find? (fun p => p.1 == "history")).map (fun p => p.2) with
      | none => .ok ⟨s, []⟩
      | some hj => (parseMessageList hj).map (fun h => ⟨s, h⟩)
    | some j2 => .error ("user_message: Input should be a valid string, got " ++ j2.pyType)
    | none => .error "user_message: Field required"
  | j2 => .error ("Input should be a valid dictionary, got " ++ j2.pyType)

/-- The outbound message list built in steps 1-2 of `get_ollama_response`
(lines 148-152), mirroring the code:
`ollama_messages = [{"role": "system", "content": system_prompt}]`, then
`ollama_messages.extend([msg.dict() for msg in history])` (the comprehension
copies each entry via `msg.dict()`), then
`ollama_messages.append(new_user_message.dict())`. -/
def build_ollama_messages (system_prompt : String) (history : List Message)
    (user_message_content : String) : List Message :=
  let ollama_messages := [Message.mk "system" system_prompt]
  let ollama_messages := ollama_messages ++ history.map (fun m => Message.mk m.role m.content)
  let ollama_messages := ollama_messages ++ [Message.mk "user" user_message_content]
  ollama_messages

/-- `ollama_request_body` (lines 155-159): model `"llama3:8b"`, the message
list, `stream: False`. -/
structure OllamaRequestBody where
  model : String
  messages : List Message
  stream : Bool
deriving DecidableEq, Repr

/-- The request body posted to `/v1/chat/completions`. -/
def ollama_request_body (system_prompt : String) (history : List Message)
    (user_message_content : String) : OllamaRequestBody :=
  { model := "llama3:8b"
    messages := build_ollama_messages system_prompt history user_message_content
    stream := false }

/-- What the single `await client.post(...)` call (lines 163-166) did, as seen
by the surrounding `try` block:
* `response status text body`: an HTTP response arrived with the given status
  code and body text; `body` is the result of `response.json()` on that same
  payload — `.ok` a parsed value, or `.error` the message of the decode
  exception it raises when the payload is not valid JSON;
* `connectError msg`: the call raised `httpx.ConnectError` (the code ignores
  the exception object, hence `msg` is unused);
* `otherException msg`: the call raised any other exception with
  `str(e) = msg` (e.g. an `httpx.ConnectTimeout` or `httpx.ReadTimeout`,
  which are not subclasses of `httpx.ConnectError`). -/
inductive PostOutcome where
  | response (status : Nat) (text : String) (body : Except String Json)
  | connectError (msg : String)
  | otherException (msg : String)

/-- The fixed error string of the `except httpx.ConnectError` handler
(line 186). -/
def connectErrorReply : String :=
  "Offline AI server is not running. Please make sure Ollama is installed and running."

/-- `httpx.Response.is_success`, the predicate `raise_for_status` checks:
status codes 200-299. A non-2xx status makes `response.raise_for_status()`
(line 167) raise `httpx.HTTPStatusError`. -/
def isSuccessStatus (status : Nat) : Bool :=
  200 ≤ status && status < 300

/-- `async def get_ollama_response(system_prompt, history, user_message_content)`
(lines 134-199), as a pure function of its arguments and of the outcome of the
one `client.post` call it performs. Mirrors the source:
1. build `new_user_message` and the outbound `ollama_messages`;
2. in the `try` block: `raise_for_status`, `response.json()`, extract
   `choices[0].message.content`, build the assistant message and
   `new_history_for_frontend = history + [new_user_message, new_bot_message]`;
3. the three `except` handlers return `reply=None`, `new_history=history`
   (the old history, not `None`), and the branch-specific error string:
   the fixed connect-error message, `f"Ollama server error: {status} - {text}"`,
   or `f"An unexpected error occurred: {str(e)}"`. -/
def get_ollama_response (system_prompt : String) (history : List Message)
    (user_message_content : String) (outcome : PostOutcome) : ChatResponse :=
  let new_user_message : Message := Message.mk "user" user_message_content
  let _ollama_messages := build_ollama_messages system_prompt history user_message_content
  match outcome with
  | .response status text body =>
    if isSuccessStatus status then
      match body with
      | .error e =>
        { reply := none, new_history := some history
          error := some ("An unexpected error occurred: " ++ e) }
      | .ok ollama_data =>
        match extractReply ollama_data with
        | .ok bot_response_content =>
          let new_bot_message : Message := Message.mk "assistant" bot_response_content
          { reply := some bot_response_content
            new_history := some (history ++ [new_user_message, new_bot_message])
            error := none }
        | .error e =>
          { reply := none, new_history := some history
            error := some ("An unexpected error occurred: " ++ e) }
    else
      { reply := none, new_history := some history
        error := some ("Ollama server error: " ++ toString status ++ " - " ++ text) }
  | .connectError _ =>
    { reply := none, new_history := some history, error := some connectErrorReply }
  | .otherException msg =>
    { reply := none, new_history := some history
      error := some ("An unexpected error occurred: " ++ msg) }

/-- What the `await client.get("/")` call of the status endpoint (line 225)
did: returned some HTTP response (any status code — `client.get` itself does
not raise for status, and the code never inspects it), raised
`httpx.ConnectError`, raised `httpx.ConnectTimeout` (a connectivity
exception that is a subclass of `httpx.TimeoutException`, not of
`httpx.ConnectError`), or raised any other exception. -/
inductive GetOutcome where
  | response (status : Nat) (text : String)
  | raiseConnectError (msg : String)
  | raiseConnectTimeout (msg : String)
  | raiseOther (msg : String)
deriving DecidableEq, Repr

/-- The observable result of the `/check-offline-status` endpoint: either the
JSON body `{"status": s}` it returns, or an exception escaping the handler
(surfaced by the framework as a generic server fault). -/
inductive StatusReply where
  | body (status_field : String)
  | unhandled
deriving DecidableEq, Repr

/-- `async def check_ollama_status()` (lines 221-228): a `try` block around
the GET whose only handler is `except httpx.ConnectError`; a non-exceptional
response yields `{"status": "online"}`, a `ConnectError` yields
`{"status": "offline"}`, and every other exception propagates. -/
def check_ollama_status : GetOutcome → StatusReply
  | .response _ _ => .body "online"
  | .raiseConnectError _ => .body "offline"
  | .raiseConnectTimeout _ => .unhandled
  | .raiseOther _ => .unhandled

/-- The shared client construction at startup (line 110):
`client = httpx.AsyncClient(base_url="http://localhost:11434", timeout=30.0)`.
The base URL is a string literal passed directly to the constructor; the
module reads no environment variable, so the configured base URL is the same
function of the process environment (modelled as an association list of
variable assignments) for every environment. -/
def client_base_url (_env : List (String × String)) : String :=
  "http://localhost:11434"

/-- The `timeout=30.0` argument of the same constructor call, in seconds. -/
def client_timeout_seconds : Nat := 30

/-- Forget the error component of an `Except`, keeping only whether and with
what value it succeeded. -/
def exceptToOption : Except String α → Option α
  | .ok a => some a
  | .error _ => none

/-- A heap of Python list-of-`Message` objects, used to express which list
objects `get_ollama_response` mutates or allocates. References are natural
numbers; `next` is the next fresh reference, and every reference below
`next` is a live object. -/
structure PyHeap where
  mem : Nat → List Message
  next : Nat

/-- Allocate a fresh list object holding `v`; returns the new heap and the
fresh reference. -/
def PyHeap.alloc (h : PyHeap) (v : List Message) : PyHeap × Nat :=
  (⟨fun r => if r = h.next then v else h.mem r, h.next + 1⟩, h.next)

/-- Read the list object at reference `r`. -/
def PyHeap.read (h : PyHeap) (r : Nat) : List Message :=
  h.mem r

/-- Overwrite the list object at reference `r` in place (the effect of
`list.extend` / `list.append` on that object). -/
def PyHeap.write (h : PyHeap) (r : Nat) (v : List Message) : PyHeap :=
  ⟨fun r2 => if r2 = r then v else h.mem r2, h.next⟩

/-- A `ChatResponse` whose `new_history` field is a reference into the heap
rather than a value, so that sharing with the caller's list is visible. -/
structure ChatResponseRef where
  reply : Option String
  new_history : Option Nat
  error : Option String

/-- `get_ollama_response` again, at the level of Python list objects
(lines 144-199). `historyRef` is the reference the caller's `history`
argument is bound to. Step by step, as in the source:
* `ollama_messages = [{...system...}]` allocates a new list;
* the comprehension `[msg.dict() for msg in history]` reads `history` and
  allocates a new list of copied entries;
* `ollama_messages.extend(...)` and `.append(...)` mutate only the
  `ollama_messages` object;
* on success, `history + [new_user_message, new_bot_message]` reads
  `history` and allocates a new list for `new_history_for_frontend`;
* on failure, the handlers return the `history` reference itself. -/
def get_ollama_response_heap (system_prompt : String) (h0 : PyHeap)
    (historyRef : Nat) (user_message_content : String) (outcome : PostOutcome) :
    PyHeap × ChatResponseRef :=
  let new_user_message : Message := Message.mk "user" user_message_content
  let (h1, omRef) := h0.alloc [Message.mk "system" system_prompt]
  let (h2, copiesRef) :=
    h1.alloc ((h1.read historyRef).map (fun m => Message.mk m.role m.content))
  let h3 := h2.write omRef (h2.read omRef ++ h2.read copiesRef)
  let h4 := h3.write omRef (h3.read omRef ++ [new_user_message])
  match outcome with
  | .response status text body =>
    if isSuccessStatus status then
      match body with
      | .error e =>
        (h4, { reply := none, new_history := some historyRef
               error := some ("An unexpected error occurred: " ++ e) })
      | .ok ollama_data =>
        match extractReply ollama_data with
        | .ok bot_response_content =>
          let new_bot_message : Message := Message.mk "assistant" bot_response_content
          let (h5, nhRef) :=
            h4.alloc (h4.read historyRef ++ [new_user_message, new_bot_message])
          (h5, { reply := some bot_response_content
                 new_history := some nhRef
                 error := none })
        | .error e =>
          (h4, { reply := none, new_history := some historyRef
                 error := some ("An unexpected error occurred: " ++ e) })
    else
      (h4, { reply := none, new_history := some historyRef
             error := some ("Ollama server error: " ++ toString status ++ " - " ++ text) })
  | .connectError _ =>
    (h4, { reply := none, new_history := some historyRef, error := some connectErrorReply })
  | .otherException msg =>
    (h4, { reply := none, new_history := some historyRef
           error := some ("An unexpected error occurred: " ++ msg) })

/-! ### Helper lemmas -/

/-- Copying a message list entry-by-entry via `msg.dict()` is the identity. -/
theorem map_dict_copy_id (l : List Message) :
    l.map (fun m => Message.mk m.role m.content) = l := by
  induction l with
  | nil => rfl
  | cons a t ih => simp [ih]

/-- `exceptToOption` of a key subscript is the option-valued field lookup. -/
theorem pySubscriptKey_toOption (j : Json) (k : String) :
    exceptToOption (pySubscriptKey j k) = j.lookup k := by
  cases j with
  | obj fields =>
    cases hf : fields.find? (fun p => p.1 == k) with
    | none => simp [pySubscriptKey, Json.lookup, hf, exceptToOption]
    | some p => simp [pySubscriptKey, Json.lookup, hf, exceptToOption]
  | str s => rfl
  | num n => rfl
  | bool b => rfl
  | null => rfl
  | arr xs => rfl

/-- `exceptToOption` of an index subscript is the option-valued indexing. -/
theorem pySubscriptIdx_toOption (j : Json) (i : Nat) :
    exceptToOption (pySubscriptIdx j i) = j.index i := by
  cases j with
  | arr xs =>
    cases hx : xs[i]? with
    | none => simp [pySubscriptIdx, Json.index, hx, exceptToOption]
    | some x => simp [pySubscriptIdx, Json.index, hx, exceptToOption]
  | obj fields => rfl
  | str s => rfl
  | num n => rfl
  | bool b => rfl
  | null => rfl

/-- `exceptToOption` of the content validation is `Json.asString`. -/
theorem validateMessageContent_toOption (j : Json) :
    exceptToOption (validateMessageContent j) = j.asString := by
  cases j <;> rfl

/-- `exceptToOption` commutes with `Except` bind. -/
theorem exceptToOption_bind (a : Except String α) (f : α → Except String β) :
    exceptToOption (a >>= f) = (exceptToOption a).bind (fun x => exceptToOption (f x)) := by
  cases a <;> rfl

/-- The subscript chain of line 170 succeeds exactly on the direct
`choices[0].message.content` path. -/
theorem extractReply_toOption (j : Json) :
    exceptToOption (extractReply j) = choicesMessageContent j := by
  simp only [extractReply, choicesMessageContent, exceptToOption_bind,
    pySubscriptKey_toOption, pySubscriptIdx_toOption, validateMessageContent_toOption,
    Option.bind_assoc]

/-- Two strings differing at some position of their character lists differ. -/
theorem string_ne_of_data_ne_at (s t : String) (i : Nat)
    (h : s.data[i]? ≠ t.data[i]?) : s ≠ t :=
  fun he => h (by rw [he])

/-- A character of the left factor of a string append. -/
theorem append_data_getElem_left (a x : String) (i : Nat) (h : i < a.data.length) :
    (a ++ x).data[i]? = a.data[i]? := by
  rw [String.data_append]
  exact List.getElem?_append_left h

/-! ### Claim theorems -/

/-- C3: for every prior transcript and user message, whenever the operation
results in a Failure of any kind (connection error, non-2xx backend status,
or any other exception), the transcript returned to the caller equals the
input transcript exactly, with no partial mutation. -/
theorem c3_failure_returns_input_transcript (sp u : String) (hist : List Message)
    (outcome : PostOutcome)
    (hfail : (get_ollama_response sp hist u outcome).error ≠ none) :
    (get_ollama_response sp hist u outcome).new_history = some hist := by
  cases outcome with
  | response status text body =>
    by_cases hs : isSuccessStatus status
    · cases body with
      | error e => simp [get_ollama_response, hs]
      | ok j =>
        cases hx : extractReply j with
        | ok s =>
          exfalso
          exact hfail (by simp [get_ollama_response, hs, hx])
        | error e => simp [get_ollama_response, hs, hx]
    · simp [get_ollama_response, hs]
  | connectError m => rfl
  | otherException m => rfl

/-- C3 witness: a concrete failing call (connection refused) with a
non-empty prior transcript returns that transcript unchanged. -/
theorem c3_failure_returns_input_transcript_witness :
    (get_ollama_response "p" [Message.mk "user" "a"] "hi" (.connectError "refused")).new_history
      = some [Message.mk "user" "a"] :=
  c3_failure_returns_input_transcript "p" "hi" [Message.mk "user" "a"]
    (.connectError "refused") (by decide)

/-- C4: for every persona directive, prior transcript, and non-empty user
message, the outbound message list is exactly
`[directive as system] ++ prior transcript verbatim ++ [new user message]`,
so its length is `len(priorTranscript) + 2`, the prior entries keep their
order, and nothing is reordered or deduplicated. -/
theorem c4_outbound_message_list (sp u : String) (hist : List Message) (hu : u ≠ "") :
    build_ollama_messages sp hist u
      = Message.mk "system" sp :: (hist ++ [Message.mk "user" u])
    ∧ (build_ollama_messages sp hist u).length = hist.length + 2
    ∧ ((build_ollama_messages sp hist u).drop 1).take hist.length = hist := by
  have heq : build_ollama_messages sp hist u
      = Message.mk "system" sp :: (hist ++ [Message.mk "user" u]) := by
    simp [build_ollama_messages, map_dict_copy_id]
  refine ⟨heq, ?_, ?_⟩
  · rw [heq]; simp
  · rw [heq]
    simp [List.take_left]

/-- C4 witness: the outbound list for a one-entry transcript and the user
message "hello". -/
theorem c4_outbound_message_list_witness :
    build_ollama_messages "p" [Message.mk "assistant" "a"] "hello"
      = Message.mk "system" "p" :: ([Message.mk "assistant" "a"] ++ [Message.mk "user" "hello"])
    ∧ (build_ollama_messages "p" [Message.mk "assistant" "a"] "hello").length
        = [Message.mk "assistant" "a"].length + 2
    ∧ ((build_ollama_messages "p" [Message.mk "assistant" "a"] "hello").drop 1).take
        [Message.mk "assistant" "a"].length = [Message.mk "assistant" "a"] :=
  c4_outbound_message_list "p" "hello" [Message.mk "assistant" "a"] (by decide)

/-- C5 counterexample: on a connection failure the code returns both a
populated `error` and a populated `new_history` (the old history), so it is
not the case that `error` is ever populated alone with `new_history` null. -/
theorem c5_counterexample :
    (get_ollama_response "p" [] "hi" (.connectError "refused")).error ≠ none
    ∧ (get_ollama_response "p" [] "hi" (.connectError "refused")).new_history ≠ none := by
  exact ⟨by decide, by decide⟩

/-- C5 (amended): every response body populates `new_history`; on success
`reply` and `new_history` are populated and `error` is null, while on any
failure `error` is populated, `reply` is null, and `new_history` is
populated with the unchanged input transcript (not null). -/
theorem c5_amended_response_shape (sp u : String) (hist : List Message)
    (outcome : PostOutcome) :
    ((get_ollama_response sp hist u outcome).error = none
        ∧ (get_ollama_response sp hist u outcome).reply ≠ none
        ∧ (get_ollama_response sp hist u outcome).new_history ≠ none)
    ∨ ((get_ollama_response sp hist u outcome).error ≠ none
        ∧ (get_ollama_response sp hist u outcome).reply = none
        ∧ (get_ollama_response sp hist u outcome).new_history = some hist) := by
  cases outcome with
  | response status text body =>
    by_cases hs : isSuccessStatus status
    · cases body with
      | error e => right; simp [get_ollama_response, hs]
      | ok j =>
        cases hx : extractReply j with
        | ok s => left; simp [get_ollama_response, hs, hx]
        | error e => right; simp [get_ollama_response, hs, hx]
    · right; simp [get_ollama_response, hs]
  | connectError m => right; simp [get_ollama_response]
  | otherException m => right; simp [get_ollama_response]

/-- C7 counterexample: a connect timeout (`httpx.ConnectTimeout`, a
connectivity exception that is not a subclass of `httpx.ConnectError`)
escapes the status endpoint instead of being mapped to the offline reply. -/
theorem c7_counterexample :
    check_ollama_status (.raiseConnectTimeout "timed out") = .unhandled
    ∧ check_ollama_status (.raiseConnectTimeout "timed out") ≠ .body "offline" := by
  exact ⟨rfl, by decide⟩

/-- C7 (amended): the liveness probe treats any non-exceptional response,
regardless of status code, as online; it maps `httpx.ConnectError` (and only
that exception class) to the offline reply, and any other exception raised
by the GET — including a connect timeout — propagates to the caller
unhandled. -/
theorem c7_amended_probe (st : Nat) (t m : String) :
    check_ollama_status (.response st t) = .body "online"
    ∧ check_ollama_status (.raiseConnectError m) = .body "offline"
    ∧ check_ollama_status (.raiseConnectTimeout m) = .unhandled
    ∧ check_ollama_status (.raiseOther m) = .unhandled :=
  ⟨rfl, rfl, rfl, rfl⟩

/-- C8 counterexample: setting a backend-address environment variable does
not change the base URL the client is constructed with; the constructor call
passes the string literal and reads no environment variable. -/
theorem c8_counterexample :
    client_base_url [("OLLAMA_BASE_URL", "http://example.com:9999")]
      = "http://localhost:11434"
    ∧ client_base_url [("OLLAMA_BASE_URL", "http://example.com:9999")]
      ≠ "http://example.com:9999" := by
  exact ⟨rfl, by decide⟩

/-- C8 (amended): the backend base URL used for every outbound call is the
hard-coded constant `http://localhost:11434`, the same for every process
environment; it cannot be overridden via an environment variable. -/
theorem c8_amended_base_url (env : List (String × String)) :
    client_base_url env = "http://localhost:11434" :=
  rfl

/-- C6: the three `except` handlers produce three pairwise-distinct,
human-readable error strings — the fixed unreachable message for
`httpx.ConnectError`, `"Ollama server error: {status} - {body}"` for a
non-2xx backend status (so the detail contains both the numeric status code
and the backend-provided body text), and
`"An unexpected error occurred: {str(e)}"` for any other exception. -/
theorem c6_error_taxonomy (sp u text cmsg omsg : String) (hist : List Message)
    (status : Nat) (body : Except String Json)
    (hbad : isSuccessStatus status = false) :
    (get_ollama_response sp hist u (.connectError cmsg)).error = some connectErrorReply
    ∧ (get_ollama_response sp hist u (.response status text body)).error
        = some ("Ollama server error: " ++ toString status ++ " - " ++ text)
    ∧ (get_ollama_response sp hist u (.otherException omsg)).error
        = some ("An unexpected error occurred: " ++ omsg)
    ∧ (∃ pre suf, "Ollama server error: " ++ toString status ++ " - " ++ text
        = pre ++ toString status ++ suf)
    ∧ (∃ pre suf, "Ollama server error: " ++ toString status ++ " - " ++ text
        = pre ++ text ++ suf)
    ∧ connectErrorReply ≠ "Ollama server error: " ++ toString status ++ " - " ++ text
    ∧ connectErrorReply ≠ "An unexpected error occurred: " ++ omsg
    ∧ "Ollama server error: " ++ toString status ++ " - " ++ text
        ≠ "An unexpected error occurred: " ++ omsg := by
  have hstat : ("Ollama server error: " ++ toString status ++ " - " ++ text)
      = "Ollama server error: " ++ (toString status ++ (" - " ++ text)) := by
    rw [String.append_assoc, String.append_assoc]
  refine ⟨rfl, by simp [get_ollama_response, hbad], rfl, ?_, ?_, ?_, ?_, ?_⟩
  · exact ⟨"Ollama server error: ", " - " ++ text, by rw [String.append_assoc]⟩
  · exact ⟨"Ollama server error: " ++ toString status ++ " - ", "", by rw [String.append_empty]⟩
  · apply string_ne_of_data_ne_at _ _ 1
    rw [hstat, append_data_getElem_left "Ollama server error: " _ 1 (by decide)]
    decide
  · apply string_ne_of_data_ne_at _ _ 0
    rw [append_data_getElem_left "An unexpected error occurred: " _ 0 (by decide)]
    decide
  · apply string_ne_of_data_ne_at _ _ 1
    rw [hstat, append_data_getElem_left "Ollama server error: " _ 1 (by decide),
      append_data_getElem_left "An unexpected error occurred: " _ 1 (by decide)]
    decide

/-- C6 witness: backend HTTP 500 with body "oom" (Scenario C), together with
concrete instances of the other two failure kinds. -/
theorem c6_error_taxonomy_witness :
    (get_ollama_response "p" [] "hi" (.response 500 "oom" (.error "e"))).error
      = some ("Ollama server error: " ++ toString 500 ++ " - " ++ "oom")
    ∧ (∃ pre suf, "Ollama server error: " ++ toString 500 ++ " - " ++ "oom"
        = pre ++ toString 500 ++ suf)
    ∧ (∃ pre suf, "Ollama server error: " ++ toString 500 ++ " - " ++ "oom"
        = pre ++ "oom" ++ suf)
    ∧ (get_ollama_response "p" [] "hi" (.connectError "x")).error = some connectErrorReply :=
  ⟨(c6_error_taxonomy "p" "hi" "oom" "x" "boom" [] 500 (.error "e") (by decide)).2.1,
   (c6_error_taxonomy "p" "hi" "oom" "x" "boom" [] 500 (.error "e") (by decide)).2.2.2.1,
   (c6_error_taxonomy "p" "hi" "oom" "x" "boom" [] 500 (.error "e") (by decide)).2.2.2.2.1,
   (c6_error_taxonomy "p" "hi" "oom" "x" "boom" [] 500 (.error "e") (by decide)).1⟩

/-- C1 counterexample: for the flat shape `{"response":"hi"}` the code does
not return "hi" but an error (the subscript `['choices']` raises `KeyError`,
caught by the generic handler); likewise the nested shape
`{"message":{"content":"hi"}}` does not yield "hi", and the
unrecognized-but-valid shape `{"foo":"bar"}` produces an error rather than a
textual fallback. -/
theorem c1_counterexample :
    (get_ollama_response "p" [] "hey"
        (.response 200 "" (.ok (Json.obj [("response", Json.str "hi")])))).reply ≠ some "hi"
    ∧ (get_ollama_response "p" [] "hey"
        (.response 200 "" (.ok (Json.obj [("response", Json.str "hi")])))).error ≠ none
    ∧ (get_ollama_response "p" [] "hey"
        (.response 200 "" (.ok (Json.obj
          [("message", Json.obj [("content", Json.str "hi")])])))).reply ≠ some "hi"
    ∧ (get_ollama_response "p" [] "hey"
        (.response 200 "" (.ok (Json.obj [("foo", Json.str "bar")])))).error ≠ none := by
  refine ⟨by decide, by decide, by decide, by decide⟩

/-- C1 (amended): on a successful (2xx) backend response with a parseable
body, the reply is exactly the string found at `choices[0].message.content`
(an OpenAI-style shape); when that path is absent the call is surfaced as an
error response — there is no nested `message.content` probe, no flat
`response` probe, and no textual-rendering fallback. -/
theorem c1_amended_reply_extraction (sp u text : String) (hist : List Message)
    (status : Nat) (j : Json) (hok : isSuccessStatus status = true) :
    (get_ollama_response sp hist u (.response status text (.ok j))).reply
      = choicesMessageContent j
    ∧ (choicesMessageContent j = none →
        (get_ollama_response sp hist u (.response status text (.ok j))).error ≠ none) := by
  constructor
  · rw [← extractReply_toOption]
    cases hx : extractReply j with
    | ok s => simp [get_ollama_response, hok, hx, exceptToOption]
    | error e => simp [get_ollama_response, hok, hx, exceptToOption]
  · intro hnone
    rw [← extractReply_toOption] at hnone
    cases hx : extractReply j with
    | ok s => rw [hx] at hnone; exact absurd hnone (by simp [exceptToOption])
    | error e => simp [get_ollama_response, hok, hx]

/-- C1 amended witness: a concrete 2xx response whose body carries the
OpenAI-style `choices[0].message.content` path. -/
theorem c1_amended_reply_extraction_witness :
    (get_ollama_response "p" [] "Hello"
        (.response 200 "" (.ok (Json.obj [("choices", Json.arr
          [Json.obj [("message", Json.obj [("content", Json.str "Hi there")])]])])))).reply
      = choicesMessageContent (Json.obj [("choices", Json.arr
          [Json.obj [("message", Json.obj [("content", Json.str "Hi there")])]])])
    ∧ (choicesMessageContent (Json.obj [("choices", Json.arr
          [Json.obj [("message", Json.obj [("content", Json.str "Hi there")])]])]) = none →
        (get_ollama_response "p" [] "Hello"
          (.response 200 "" (.ok (Json.obj [("choices", Json.arr
            [Json.obj [("message", Json.obj [("content", Json.str "Hi there")])]])])))).error
          ≠ none) :=
  c1_amended_reply_extraction "p" "Hello" "" [] 200
    (Json.obj [("choices", Json.arr
      [Json.obj [("message", Json.obj [("content", Json.str "Hi there")])]])])
    (by decide)

/-- C2: on a successful backend call the returned transcript is the input
transcript followed by exactly the new user message and the assistant
message carrying the derived reply, so its length is the input length + 2
and its first entries are the input transcript verbatim. -/
theorem c2_success_roundtrip (sp u text bot : String) (hist : List Message)
    (status : Nat) (j : Json) (hok : isSuccessStatus status = true)
    (hx : extractReply j = .ok bot) :
    (get_ollama_response sp hist u (.response status text (.ok j))).new_history
      = some (hist ++ [Message.mk "user" u, Message.mk "assistant" bot])
    ∧ (hist ++ [Message.mk "user" u, Message.mk "assistant" bot]).length = hist.length + 2
    ∧ (hist ++ [Message.mk "user" u, Message.mk "assistant" bot]).take hist.length = hist
    ∧ (get_ollama_response sp hist u (.response status text (.ok j))).reply = some bot := by
  refine ⟨?_, ?_, ?_, ?_⟩
  · simp [get_ollama_response, hok, hx]
  · simp
  · exact List.take_left hist [Message.mk "user" u, Message.mk "assistant" bot]
  · simp [get_ollama_response, hok, hx]

/-- C2 witness: Scenario A — empty history, user message "Hello", backend
reply "Hi there". -/
theorem c2_success_roundtrip_witness :
    (get_ollama_response "p" [] "Hello"
        (.response 200 "" (.ok (Json.obj [("choices", Json.arr
          [Json.obj [("message", Json.obj [("content", Json.str "Hi there")])]])])))).new_history
      = some ([] ++ [Message.mk "user" "Hello", Message.mk "assistant" "Hi there"])
    ∧ ([] ++ [Message.mk "user" "Hello", Message.mk "assistant" "Hi there"]).length
        = List.length ([] : List Message) + 2
    ∧ ([] ++ [Message.mk "user" "Hello", Message.mk "assistant" "Hi there"]).take
        (List.length ([] : List Message)) = ([] : List Message)
    ∧ (get_ollama_response "p" [] "Hello"
        (.response 200 "" (.ok (Json.obj [("choices", Json.arr
          [Json.obj [("message", Json.obj [("content", Json.str "Hi there")])]])])))).reply
      = some "Hi there" :=
  c2_success_roundtrip "p" "Hello" "" "Hi there" [] 200
    (Json.obj [("choices", Json.arr
      [Json.obj [("message", Json.obj [("content", Json.str "Hi there")])]])])
    (by decide) (by rfl)

/-- C9: the caller's `history` list object is never mutated: in every branch
every list object that existed before the call is unchanged afterwards (the
outbound list is built from copies in fresh objects), and the success-case
`new_history` is a freshly allocated list, not the caller's object. -/
theorem c9_history_not_mutated (sp u : String) (h0 : PyHeap) (historyRef r : Nat)
    (outcome : PostOutcome) (hr : r < h0.next) :
    ((get_ollama_response_heap sp h0 historyRef u outcome).1).read r = h0.read r
    ∧ ((get_ollama_response_heap sp h0 historyRef u outcome).2.error = none →
        ∃ nh, (get_ollama_response_heap sp h0 historyRef u outcome).2.new_history = some nh
          ∧ h0.next ≤ nh) := by
  have hne1 : r ≠ h0.next := by omega
  have hne2 : r ≠ h0.next + 1 := by omega
  have hne3 : r ≠ h0.next + 2 := by omega
  cases outcome with
  | response status text body =>
    by_cases hs : isSuccessStatus status
    · cases body with
      | error e =>
        refine ⟨?_, by simp [get_ollama_response_heap, PyHeap.alloc, PyHeap.write, hs]⟩
        simp [get_ollama_response_heap, PyHeap.alloc, PyHeap.write, PyHeap.read,
          hs, hne1, hne2, hne3]
      | ok j =>
        cases hx : extractReply j with
        | ok s =>
          constructor
          · simp [get_ollama_response_heap, PyHeap.alloc, PyHeap.write, PyHeap.read,
              hs, hx, hne1, hne2, hne3]
          · intro _
            refine ⟨h0.next + 1 + 1, ?_, by omega⟩
            simp [get_ollama_response_heap, PyHeap.alloc, PyHeap.write, hs, hx]
        | error e =>
          refine ⟨?_, by simp [get_ollama_response_heap, PyHeap.alloc, PyHeap.write, hs, hx]⟩
          simp [get_ollama_response_heap, PyHeap.alloc, PyHeap.write, PyHeap.read,
            hs, hx, hne1, hne2, hne3]
    · refine ⟨?_, by simp [get_ollama_response_heap, PyHeap.alloc, PyHeap.write, hs]⟩
      simp [get_ollama_response_heap, PyHeap.alloc, PyHeap.write, PyHeap.read,
        hs, hne1, hne2, hne3]
  | connectError m =>
    refine ⟨?_, by simp [get_ollama_response_heap, PyHeap.alloc, PyHeap.write]⟩
    simp [get_ollama_response_heap, PyHeap.alloc, PyHeap.write, PyHeap.read,
      hne1, hne2, hne3]
  | otherException m =>
    refine ⟨?_, by simp [get_ollama_response_heap, PyHeap.alloc, PyHeap.write]⟩
    simp [get_ollama_response_heap, PyHeap.alloc, PyHeap.write, PyHeap.read,
      hne1, hne2, hne3]

/-- C9 witness: a concrete one-object heap holding the caller's (empty)
history at reference 0, with a failing call. -/
theorem c9_history_not_mutated_witness :
    ((get_ollama_response_heap "p" ⟨fun _ => [], 1⟩ 0 "hi" (.connectError "x")).1).read 0
      = PyHeap.read ⟨fun _ => [], 1⟩ 0
    ∧ ((get_ollama_response_heap "p" ⟨fun _ => [], 1⟩ 0 "hi" (.connectError "x")).2.error = none →
        ∃ nh, (get_ollama_response_heap "p" ⟨fun _ => [], 1⟩ 0 "hi"
            (.connectError "x")).2.new_history = some nh
          ∧ PyHeap.next ⟨fun _ => [], 1⟩ ≤ nh) :=
  c9_history_not_mutated "p" "hi" ⟨fun _ => [], 1⟩ 0 0 (.connectError "x") (by decide)

/-- C10: the chat entry points impose no non-emptiness check on
`user_message`: the empty string is accepted by request validation, the
outbound message list still ends with the message `{role: user, content: ""}`,
and on success that empty user message is appended to the returned
transcript, exactly as for non-empty input. -/
theorem c10_empty_user_message (sp text bot : String) (hist : List Message)
    (histJ : Json) (status : Nat) (j : Json)
    (hhist : parseMessageList histJ = .ok hist)
    (hok : isSuccessStatus status = true) (hx : extractReply j = .ok bot) :
    parseChatRequest (Json.obj [("user_message", Json.str ""), ("history", histJ)])
      = .ok (ChatRequest.mk "" hist)
    ∧ build_ollama_messages sp hist ""
        = Message.mk "system" sp :: (hist ++ [Message.mk "user" ""])
    ∧ (build_ollama_messages sp hist "").getLast? = some (Message.mk "user" "")
    ∧ (get_ollama_response sp hist "" (.response status text (.ok j))).new_history
        = some (hist ++ [Message.mk "user" "", Message.mk "assistant" bot]) := by
  have heq : build_ollama_messages sp hist ""
      = Message.mk "system" sp :: (hist ++ [Message.mk "user" ""]) := by
    simp [build_ollama_messages, map_dict_copy_id]
  refine ⟨?_, heq, ?_, ?_⟩
  · have hstep : parseChatRequest (Json.obj [("user_message", Json.str ""), ("history", histJ)])
        = (parseMessageList histJ).map (fun h => ChatRequest.mk "" h) := rfl
    rw [hstep, hhist]
    rfl
  · rw [heq]
    rw [show Message.mk "system" sp :: (hist ++ [Message.mk "user" ""])
        = (Message.mk "system" sp :: hist) ++ [Message.mk "user" ""] from rfl]
    exact List.getLast?_concat _
  · simp [get_ollama_response, hok, hx]

/-- C10 witness: the empty user message on a concrete one-entry history and a
successful backend response. -/
theorem c10_empty_user_message_witness :
    parseChatRequest (Json.obj [("user_message", Json.str ""),
        ("history", Json.arr [Json.obj [("role", Json.str "user"), ("content", Json.str "a")]])])
      = .ok (ChatRequest.mk "" [Message.mk "user" "a"])
    ∧ build_ollama_messages "p" [Message.mk "user" "a"] ""
        = Message.mk "system" "p" :: ([Message.mk "user" "a"] ++ [Message.mk "user" ""])
    ∧ (build_ollama_messages "p" [Message.mk "user" "a"] "").getLast?
        = some (Message.mk "user" "")
    ∧ (get_ollama_response "p" [Message.mk "user" "a"] ""
        (.response 200 "" (.ok (Json.obj [("choices", Json.arr
          [Json.obj [("message", Json.obj [("content", Json.str "ok")])]])])))).new_history
        = some ([Message.mk "user" "a"]
            ++ [Message.mk "user" "", Message.mk "assistant" "ok"]) :=
  c10_empty_user_message "p" "" "ok" [Message.mk "user" "a"]
    (Json.arr [Json.obj [("role", Json.str "user"), ("content", Json.str "a")]]) 200
    (Json.obj [("choices", Json.arr
      [Json.obj [("message", Json.obj [("content", Json.str "ok")])]])])
    (by rfl) (by decide) (by rfl)
